import Mathlib


/-!
# GraphSensorManager (SensorTest)

A shallow embedding of `SensorTest/GraphSensorManager.h`: the manager's two
containers, the calls it makes on the `EntityManager` singleton and on the
sensor generator, and its methods as functions on an explicit state.
-/

namespace SensorTest

/-! ## Collaborators -/

/-- A `GraphSensor*` value: the address of a sensor object, `0` for the null pointer. -/
abbrev SensorPtr := Nat

/-- The sensor objects as the manager sees them, through the two getters it calls.
`GraphSensor` is declared in `GraphSensor.h`, outside the header embedded here, so both
getters are parameters: `GetOccupyCount` is the begin/end contact count accumulated by
the sensor and `GetID` is the entity identifier of the sensor. -/
structure SensorHeap where
  GetOccupyCount : SensorPtr → Int
  GetID : SensorPtr → Nat

/-- One call received by the `EntityManager` singleton. -/
inductive EntityCall where
  | RegisterEntity (entity : SensorPtr)
  | DeregisterEntity (id : Nat)
  deriving DecidableEq, Repr

/-- The `EntityManager` singleton, observed through the calls made on it, oldest first.
The class is declared in `EntityManager.h`, outside the header embedded here. -/
structure EntityManager where
  calls : List EntityCall
  deriving DecidableEq, Repr

/-- The call `em.RegisterEntity(entity)`. -/
def EntityManager.RegisterEntity (em : EntityManager) (entity : SensorPtr) : EntityManager :=
  { calls := em.calls ++ [EntityCall.RegisterEntity entity] }

/-- The call `em.DeregisterEntity(id)`. -/
def EntityManager.DeregisterEntity (em : EntityManager) (id : Nat) : EntityManager :=
  { calls := em.calls ++ [EntityCall.DeregisterEntity id] }

/-- The two methods of `GraphSensorGenerator` the manager calls, over an abstract
generator state `G`. The class is declared in `GraphSensorGenerator.h`, outside the
header embedded here, so both are parameters: `CreateSensors` is the state change of `generator.CreateSensors()`
and `GetSensorsConst` the vector that `generator.GetSensorsConst()` returns. -/
structure GraphSensorGenerator (G : Type) where
  CreateSensors : G → G
  GetSensorsConst : G → List SensorPtr

/-! ## The manager -/

/-- The data members of `GraphSensorManager`: the vector `_sensors` and the
`std::set` of pointers `_occupiedSensors`. -/
structure GraphSensorManager where
  _sensors : List SensorPtr
  _occupiedSensors : Finset SensorPtr
  deriving DecidableEq

/-- The constructor `GraphSensorManager()`: its body is empty, both containers are
default-constructed. -/
def GraphSensorManager.new : GraphSensorManager :=
  { _sensors := [], _occupiedSensors := ∅ }

/-- The state the methods act on: the manager and the `EntityManager` singleton. -/
structure World where
  mgr : GraphSensorManager
  em : EntityManager
  deriving DecidableEq

/-- The loop of `DestroySensors`, from counter value `idx` on:
`for(idx; idx < _sensors.size(); ++idx) em.DeregisterEntity(_sensors[idx]->GetID());`.
The counter is a natural number: the source's `int` counter does not wrap on a vector
of fewer than `2^31` pointers. The sensor objects are read in the state `h` they have
when the method is entered. -/
def DestroySensorsLoop (h : SensorHeap) (sensors : List SensorPtr) (idx : Nat)
    (em : EntityManager) : EntityManager :=
  if hlt : idx < sensors.length then
    DestroySensorsLoop h sensors (idx + 1)
      (em.DeregisterEntity (h.GetID (sensors.get ⟨idx, hlt⟩)))
  else em
termination_by sensors.length - idx

/-- The private method `DestroySensors()`: clear the occupied set, deregister every
element of `_sensors` by its ID, clear `_sensors`. -/
def DestroySensors (h : SensorHeap) (w : World) : World :=
  let occupied : Finset SensorPtr := ∅
  let em := DestroySensorsLoop h w.mgr._sensors 0 w.em
  { mgr := { _sensors := [], _occupiedSensors := occupied }, em := em }

/-- The method `Reset()`. -/
def Reset (h : SensorHeap) (w : World) : World :=
  DestroySensors h w

/-- The method `Shutdown()`. -/
def Shutdown (h : SensorHeap) (w : World) : World :=
  Reset h w

/-- The method `Init()`: `Reset(); return true;`. -/
def Init (h : SensorHeap) (w : World) : Bool × World :=
  (true, Reset h w)

/-- The call `v.resize(n)` on a vector of pointers: the first `n` elements are kept and
missing ones are value-initialised, that is null. -/
def vectorResize (v : List SensorPtr) (n : Nat) : List SensorPtr :=
  v.take n ++ List.replicate (n - v.length) 0

/-- The loop of `CreateSensors`, from counter value `idx` on, acting on `_sensors` and
the entity manager:
`for(idx; idx < sensors.size(); ++idx) { em.RegisterEntity(sensors[idx]); _sensors[idx] = sensors[idx]; }`.
The counter is a natural number: the source's `uint32` counter does not wrap on a
vector of fewer than `2^32` pointers. -/
def CreateSensorsLoop (sensors : List SensorPtr) (idx : Nat)
    (st : List SensorPtr × EntityManager) : List SensorPtr × EntityManager :=
  if hlt : idx < sensors.length then
    CreateSensorsLoop sensors (idx + 1)
      (st.1.set idx (sensors.get ⟨idx, hlt⟩),
        st.2.RegisterEntity (sensors.get ⟨idx, hlt⟩))
  else st
termination_by sensors.length - idx

/-- The method `CreateSensors(generator)`. The generator is passed by reference, so its
state after the call is returned next to the new state. -/
def CreateSensors {G : Type} (gen : GraphSensorGenerator G) (generator : G) (w : World) :
    G × World :=
  let generator1 := gen.CreateSensors generator
  let sensors := gen.GetSensorsConst generator1
  let resized := vectorResize w.mgr._sensors sensors.length
  let st := CreateSensorsLoop sensors 0 (resized, w.em)
  (generator1, { mgr := { w.mgr with _sensors := st.1 }, em := st.2 })

/-- The accessor `GetOcuppiedSensors()`. -/
def GetOcuppiedSensors (w : World) : Finset SensorPtr :=
  w.mgr._occupiedSensors

/-- The method `UpdateGraphSensorState(sensor)`, the sensor objects being in state `h`
at the time of the call. -/
def UpdateGraphSensorState (h : SensorHeap) (sensor : SensorPtr) (w : World) : World :=
  if sensor ∉ w.mgr._occupiedSensors then
    -- Was not occupied before
    if h.GetOccupyCount sensor ≠ 0 then
      { w with mgr := { w.mgr with _occupiedSensors := insert sensor w.mgr._occupiedSensors } }
    else w
  else
    -- Was being tracked before
    if h.GetOccupyCount sensor = 0 then
      { w with mgr := { w.mgr with _occupiedSensors := w.mgr._occupiedSensors.erase sensor } }
    else w

/-! ## Sequences of calls -/

/-- A sequence of `UpdateGraphSensorState` calls, first call first; each call comes with
the state of the sensor objects at its time. -/
def UpdateSequence (calls : List (SensorHeap × SensorPtr)) (w : World) : World :=
  calls.foldl (fun acc c => UpdateGraphSensorState c.1 c.2 acc) w

/-- One call on the manager from outside. -/
inductive Op (G : Type) where
  | CreateSensors (generator : G)
  | UpdateGraphSensorState (h : SensorHeap) (sensor : SensorPtr)
  | Reset (h : SensorHeap)
  | Shutdown (h : SensorHeap)

/-- The state after one call. -/
def applyOp {G : Type} (gen : GraphSensorGenerator G) (op : Op G) (w : World) : World :=
  match op with
  | Op.CreateSensors generator => (CreateSensors gen generator w).2
  | Op.UpdateGraphSensorState h sensor => UpdateGraphSensorState h sensor w
  | Op.Reset h => Reset h w
  | Op.Shutdown h => Shutdown h w

/-- The state after a sequence of calls, first call first. -/
def runOps {G : Type} (gen : GraphSensorGenerator G) (ops : List (Op G)) (w : World) : World :=
  ops.foldl (fun acc op => applyOp gen op acc) w

/-- A freshly constructed manager next to an entity manager in state `em`. -/
def World.fresh (em : EntityManager) : World :=
  { mgr := GraphSensorManager.new, em := em }

/-- A generator whose state is the vector it holds and whose `CreateSensors()` leaves
that vector as it is; used for concrete runs. -/
def listGenerator : GraphSensorGenerator (List SensorPtr) :=
  { CreateSensors := fun g => g, GetSensorsConst := fun g => g }

/-- Sensor objects that all report the contact count `n` and whose ID is their address;
used for concrete runs. -/
def constHeap (n : Int) : SensorHeap :=
  { GetOccupyCount := fun _ => n, GetID := fun p => p }

/-- The occupied set is inside the retained list. -/
def Included (w : World) : Prop :=
  ∀ s ∈ w.mgr._occupiedSensors, s ∈ w.mgr._sensors

/-- The condition on one call, in the state `w` it is made in: a `CreateSensors` call is
made when every sensor of the occupied set is in the list the generator reports after
`generator.CreateSensors()`, and an `UpdateGraphSensorState` call whose sensor has a
nonzero occupy count is passed a sensor of the retained list. -/
def opGuard {G : Type} (gen : GraphSensorGenerator G) (op : Op G) (w : World) : Prop :=
  match op with
  | Op.CreateSensors generator =>
    ∀ s ∈ w.mgr._occupiedSensors, s ∈ gen.GetSensorsConst (gen.CreateSensors generator)
  | Op.UpdateGraphSensorState h sensor => h.GetOccupyCount sensor ≠ 0 → sensor ∈ w.mgr._sensors
  | Op.Reset _ => True
  | Op.Shutdown _ => True

/-- Whether a call meets `opGuard` can be computed. -/
instance opGuard.decidable {G : Type} (gen : GraphSensorGenerator G) (op : Op G) (w : World) :
    Decidable (opGuard gen op w) := by
  cases op <;> unfold opGuard <;> infer_instance

/-- Every call of the sequence meets `opGuard` in the state it is made in. -/
def Admissible {G : Type} (gen : GraphSensorGenerator G) : List (Op G) → World → Prop
  | [], _ => True
  | op :: rest, w => opGuard gen op w ∧ Admissible gen rest (applyOp gen op w)

/-- Whether a sequence of calls is admissible can be computed. -/
instance Admissible.decidable {G : Type} (gen : GraphSensorGenerator G) :
    (ops : List (Op G)) → (w : World) → Decidable (Admissible gen ops w)
  | [], _ => isTrue trivial
  | op :: rest, w =>
    match opGuard.decidable gen op w, Admissible.decidable gen rest (applyOp gen op w) with
    | isTrue h1, isTrue h2 => isTrue ⟨h1, h2⟩
    | isFalse h1, _ => isFalse (fun h => h1 h.1)
    | _, isFalse h2 => isFalse (fun h => h2 h.2)

/-! ## Helper lemmas -/

theorem mem_update_self (h : SensorHeap) (s : SensorPtr) (w : World) :
    s ∈ (UpdateGraphSensorState h s w).mgr._occupiedSensors ↔ h.GetOccupyCount s ≠ 0 := by
  unfold UpdateGraphSensorState
  by_cases hm : s ∈ w.mgr._occupiedSensors <;> by_cases hc : h.GetOccupyCount s = 0 <;>
    simp [hm, hc]

theorem mem_update_other (h : SensorHeap) (s t : SensorPtr) (w : World) (hts : t ≠ s) :
    t ∈ (UpdateGraphSensorState h s w).mgr._occupiedSensors ↔ t ∈ w.mgr._occupiedSensors := by
  unfold UpdateGraphSensorState
  by_cases hm : s ∈ w.mgr._occupiedSensors <;> by_cases hc : h.GetOccupyCount s = 0 <;>
    simp [hm, hc, hts]

theorem update_sensors (h : SensorHeap) (s : SensorPtr) (w : World) :
    (UpdateGraphSensorState h s w).mgr._sensors = w.mgr._sensors := by
  unfold UpdateGraphSensorState
  by_cases hm : s ∈ w.mgr._occupiedSensors <;> by_cases hc : h.GetOccupyCount s = 0 <;>
    simp [hm, hc]

theorem update_em (h : SensorHeap) (s : SensorPtr) (w : World) :
    (UpdateGraphSensorState h s w).em = w.em := by
  unfold UpdateGraphSensorState
  by_cases hm : s ∈ w.mgr._occupiedSensors <;> by_cases hc : h.GetOccupyCount s = 0 <;>
    simp [hm, hc]

theorem destroySensorsLoop_calls (h : SensorHeap) (sensors : List SensorPtr) :
    ∀ (k idx : Nat) (em : EntityManager), sensors.length - idx = k →
      (DestroySensorsLoop h sensors idx em).calls =
        em.calls ++ (sensors.drop idx).map (fun s => EntityCall.DeregisterEntity (h.GetID s)) := by
  intro k
  induction k with
  | zero =>
    intro idx em hk
    have hge : sensors.length ≤ idx := by omega
    unfold DestroySensorsLoop
    simp [Nat.not_lt.mpr hge, List.drop_eq_nil_of_le hge]
  | succ k ih =>
    intro idx em hk
    have hlt : idx < sensors.length := by omega
    unfold DestroySensorsLoop
    rw [dif_pos hlt, ih (idx + 1) _ (by omega), List.drop_eq_getElem_cons hlt]
    simp only [EntityManager.DeregisterEntity, List.get_eq_getElem, List.map_cons,
      List.append_assoc, List.singleton_append]

theorem createSensorsLoop_eq (sensors : List SensorPtr) :
    ∀ (k idx : Nat) (st : List SensorPtr × EntityManager), sensors.length - idx = k →
      st.1.length = sensors.length →
      CreateSensorsLoop sensors idx st =
        (st.1.take idx ++ sensors.drop idx,
          { calls := st.2.calls ++ (sensors.drop idx).map EntityCall.RegisterEntity }) := by
  intro k
  induction k with
  | zero =>
    intro idx st hk hlen
    have hge : sensors.length ≤ idx := by omega
    unfold CreateSensorsLoop
    rw [dif_neg (Nat.not_lt.mpr hge), List.drop_eq_nil_of_le hge,
      List.take_of_length_le (by omega)]
    simp
  | succ k ih =>
    intro idx st hk hlen
    have hlt : idx < sensors.length := by omega
    unfold CreateSensorsLoop
    rw [dif_pos hlt, ih (idx + 1) _ (by omega) (by simpa using hlen)]
    have hlt1 : idx < st.1.length := by omega
    have htake : List.take (idx + 1) (st.1.set idx (sensors.get ⟨idx, hlt⟩)) =
        List.take idx st.1 ++ [sensors.get ⟨idx, hlt⟩] := by
      apply List.ext_getElem?
      intro i
      simp only [List.getElem?_take, List.getElem?_set, List.getElem?_append, List.length_take]
      by_cases h1 : i < idx
      · have h2 : idx ≠ i := by omega
        have h3 : i < idx + 1 := by omega
        have h4 : i < min idx st.1.length := by omega
        simp [h1, h2, h3, h4]
      · by_cases h2 : i = idx
        · subst h2
          have h6 : i - min i st.1.length = 0 := by omega
          simp [hlt1, h6]
        · have h3 : ¬ i < idx + 1 := by omega
          have h4 : ¬ i < min idx st.1.length := by omega
          simp [h3, h4]
          omega
    simp only [htake]
    rw [List.drop_eq_getElem_cons hlt]
    simp only [EntityManager.RegisterEntity, List.get_eq_getElem, List.map_cons,
      List.append_assoc, List.singleton_append]

theorem vectorResize_length (v : List SensorPtr) (n : Nat) : (vectorResize v n).length = n := by
  unfold vectorResize
  simp
  omega

theorem createSensors_eq {G : Type} (gen : GraphSensorGenerator G) (generator : G) (w : World) :
    CreateSensors gen generator w =
      (gen.CreateSensors generator,
        { mgr := { _sensors := gen.GetSensorsConst (gen.CreateSensors generator),
                   _occupiedSensors := w.mgr._occupiedSensors },
          em := { calls := w.em.calls ++
            (gen.GetSensorsConst (gen.CreateSensors generator)).map EntityCall.RegisterEntity } }) := by
  unfold CreateSensors
  simp only
  rw [createSensorsLoop_eq _ _ 0 _ rfl (vectorResize_length _ _)]
  simp

theorem destroySensors_eq (h : SensorHeap) (w : World) :
    DestroySensors h w =
      { mgr := { _sensors := [], _occupiedSensors := ∅ },
        em := { calls := w.em.calls ++
          w.mgr._sensors.map (fun s => EntityCall.DeregisterEntity (h.GetID s)) } } := by
  unfold DestroySensors
  have := destroySensorsLoop_calls h w.mgr._sensors _ 0 w.em rfl
  simp only [List.drop_zero] at this
  simp only [← this]

theorem update_update (h1 h2 : SensorHeap) (s : SensorPtr) (w : World)
    (hsame : h2.GetOccupyCount s = h1.GetOccupyCount s) :
    UpdateGraphSensorState h2 s (UpdateGraphSensorState h1 s w) =
      UpdateGraphSensorState h1 s w := by
  unfold UpdateGraphSensorState
  by_cases hm : s ∈ w.mgr._occupiedSensors <;> by_cases hc : h1.GetOccupyCount s = 0 <;>
    simp [hm, hc, hsame]

theorem update_unchanged (h : SensorHeap) (s : SensorPtr) (w : World)
    (hcase : (s ∈ w.mgr._occupiedSensors ∧ h.GetOccupyCount s ≠ 0) ∨
      (s ∉ w.mgr._occupiedSensors ∧ h.GetOccupyCount s = 0)) :
    UpdateGraphSensorState h s w = w := by
  unfold UpdateGraphSensorState
  rcases hcase with ⟨hm, hc⟩ | ⟨hm, hc⟩ <;> simp [hm, hc]

theorem updateSequence_concat (calls : List (SensorHeap × SensorPtr))
    (c : SensorHeap × SensorPtr) (w : World) :
    UpdateSequence (calls ++ [c]) w = UpdateGraphSensorState c.1 c.2 (UpdateSequence calls w) := by
  simp [UpdateSequence, List.foldl_append]

/-- Membership after a sequence of updates, from any starting state: the last call that
passed `s` saw a nonzero count, or no call passed `s` and `s` was a member at the start. -/
theorem updateSequence_mem (s : SensorPtr) (w : World)
    (calls : List (SensorHeap × SensorPtr)) :
    s ∈ (UpdateSequence calls w).mgr._occupiedSensors ↔
      (∃ pre h post, calls = pre ++ (h, s) :: post ∧ (∀ c ∈ post, c.2 ≠ s) ∧
          h.GetOccupyCount s ≠ 0) ∨
        ((∀ c ∈ calls, c.2 ≠ s) ∧ s ∈ w.mgr._occupiedSensors) := by
  induction calls using List.reverseRecOn with
  | nil => simp [UpdateSequence]
  | append_singleton l c ih =>
    rw [updateSequence_concat]
    by_cases hcs : c.2 = s
    · have hc : c = (c.1, s) := by rw [← hcs]
      rw [hc]
      simp only []
      rw [mem_update_self]
      constructor
      · intro hne
        exact Or.inl ⟨l, c.1, [], by simp, by simp, hne⟩
      · rintro (⟨pre, h, post, heq, hpost, hne⟩ | ⟨hall, _⟩)
        · rcases List.eq_nil_or_concat post with hnil | ⟨post1, c1, hpc⟩
          · subst hnil
            have h2 : l ++ [(c.1, s)] = pre ++ [(h, s)] := heq
            have h3 := List.append_inj' h2 rfl
            have h4 : c.1 = h := by
              have := h3.2
              simp at this
              exact this
            rw [h4]
            exact hne
          · subst hpc
            have h2 : l ++ [(c.1, s)] = (pre ++ (h, s) :: post1) ++ [c1] := by
              rw [heq]
              simp
            have h3 := List.append_inj' h2 rfl
            have h4 : c1 = (c.1, s) := by
              have := h3.2
              simp at this
              exact this.symm
            exact absurd (by rw [h4]) (hpost c1 (by simp))
        · exact absurd rfl (hall (c.1, s) (by simp))
    · rw [mem_update_other _ _ _ _ (fun h => hcs h.symm), ih]
      constructor
      · rintro (⟨pre, h, post, heq, hpost, hne⟩ | ⟨hall, hmem⟩)
        · refine Or.inl ⟨pre, h, post ++ [c], by simp [heq], ?_, hne⟩
          intro c1 hc1
          rcases List.mem_append.mp hc1 with h1 | h1
          · exact hpost c1 h1
          · have : c1 = c := by simpa using h1
            rw [this]
            exact hcs
        · refine Or.inr ⟨?_, hmem⟩
          intro c1 hc1
          rcases List.mem_append.mp hc1 with h1 | h1
          · exact hall c1 h1
          · have : c1 = c := by simpa using h1
            rw [this]
            exact hcs
      · rintro (⟨pre, h, post, heq, hpost, hne⟩ | ⟨hall, hmem⟩)
        · rcases List.eq_nil_or_concat post with hnil | ⟨post1, c1, hpc⟩
          · subst hnil
            have h2 : l ++ [c] = pre ++ [(h, s)] := heq
            have h3 := List.append_inj' h2 rfl
            have h4 : c = (h, s) := by
              have := h3.2
              simpa using this
            exact absurd (by rw [h4]) hcs
          · subst hpc
            have h2 : l ++ [c] = (pre ++ (h, s) :: post1) ++ [c1] := by
              rw [heq]
              simp
            have h3 := List.append_inj' h2 rfl
            refine Or.inl ⟨pre, h, post1, h3.1, ?_, hne⟩
            intro c2 hc2
            exact hpost c2 (by simp [hc2])
        · exact Or.inr ⟨fun c1 hc1 => hall c1 (by simp [hc1]), hmem⟩

/-- One call made in a state where the occupied set is inside the retained list keeps it
inside exactly when the call meets `opGuard`. -/
theorem included_applyOp_iff {G : Type} (gen : GraphSensorGenerator G) (op : Op G) (w : World)
    (hinv : Included w) : Included (applyOp gen op w) ↔ opGuard gen op w := by
  cases op with
  | CreateSensors generator =>
    simp [Included, opGuard, applyOp, createSensors_eq]
  | UpdateGraphSensorState h sensor =>
    simp only [Included, opGuard, applyOp, update_sensors]
    constructor
    · intro hall hne
      exact hall sensor ((mem_update_self h sensor w).mpr hne)
    · intro hg s hs
      by_cases hss : s = sensor
      · rw [hss] at hs ⊢
        exact hg ((mem_update_self h sensor w).mp hs)
      · exact hinv s ((mem_update_other h sensor s w hss).mp hs)
  | Reset h =>
    simp [Included, opGuard, applyOp, Reset, destroySensors_eq]
  | Shutdown h =>
    simp [Included, opGuard, applyOp, Shutdown, Reset, destroySensors_eq]

theorem runOps_cons {G : Type} (gen : GraphSensorGenerator G) (op : Op G) (rest : List (Op G))
    (w : World) : runOps gen (op :: rest) w = runOps gen rest (applyOp gen op w) := by
  simp [runOps]

theorem runOps_preserves {G : Type} (gen : GraphSensorGenerator G) (ops : List (Op G)) :
    ∀ w : World, Admissible gen ops w → Included w → Included (runOps gen ops w) := by
  induction ops with
  | nil =>
    intro w _ hinv
    simpa [runOps] using hinv
  | cons op rest ih =>
    intro w hadm hinv
    rw [runOps_cons]
    exact ih (applyOp gen op w) hadm.2 ((included_applyOp_iff gen op w hinv).mpr hadm.1)

/-- The guards are no stronger than needed: from a state where the occupied set is inside
the retained list, a sequence of calls is admissible exactly when the occupied set is
inside the retained list after each of its calls. -/
theorem admissible_iff_included_along {G : Type} (gen : GraphSensorGenerator G)
    (ops : List (Op G)) :
    ∀ w : World, Included w →
      (Admissible gen ops w ↔
        ∀ k, k ≤ ops.length → Included (runOps gen (ops.take k) w)) := by
  induction ops with
  | nil =>
    intro w hinv
    simp [Admissible, runOps, hinv]
  | cons op rest ih =>
    intro w hinv
    constructor
    · intro hadm k hk
      cases k with
      | zero => simpa [runOps] using hinv
      | succ k =>
        have hstep := (included_applyOp_iff gen op w hinv).mpr hadm.1
        have := (ih (applyOp gen op w) hstep).mp hadm.2 k (by simpa using hk)
        simpa [runOps_cons] using this
    · intro hall
      have h1 : Included (applyOp gen op w) := by
        have := hall 1 (by simp)
        simpa [runOps] using this
      refine ⟨(included_applyOp_iff gen op w hinv).mp h1, ?_⟩
      refine (ih (applyOp gen op w) h1).mpr ?_
      intro k hk
      have := hall (k + 1) (by simpa using hk)
      simpa [runOps_cons] using this

/-! ## Claims -/

/-- C1: after `UpdateGraphSensorState(s)` the sensor `s` is in the occupied set if and
only if its occupy count is nonzero at the time of the call, whatever the set held
before. -/
theorem update_mem_iff_count_ne_zero (h : SensorHeap) (s : SensorPtr) (w : World) :
    s ∈ GetOcuppiedSensors (UpdateGraphSensorState h s w) ↔ h.GetOccupyCount s ≠ 0 :=
  mem_update_self h s w

/-- C2: for a sequence of `UpdateGraphSensorState` calls applied to a manager whose
occupied set is empty, a sensor `s` is in the resulting occupied set if and only if the
sequence has a call that passed `s`, after which no call passed `s`, and at which the
occupy count of `s` was nonzero. -/
theorem updateSequence_mem_iff_last_nonzero (w : World)
    (hempty : w.mgr._occupiedSensors = ∅) (calls : List (SensorHeap × SensorPtr))
    (s : SensorPtr) :
    s ∈ GetOcuppiedSensors (UpdateSequence calls w) ↔
      ∃ pre h post, calls = pre ++ (h, s) :: post ∧ (∀ c ∈ post, c.2 ≠ s) ∧
        h.GetOccupyCount s ≠ 0 := by
  unfold GetOcuppiedSensors
  rw [updateSequence_mem, hempty]
  simp

theorem updateSequence_mem_iff_last_nonzero_witness :
    (World.fresh ⟨[]⟩).mgr._occupiedSensors = ∅ ∧
      (4 ∈ GetOcuppiedSensors
          (UpdateSequence [(constHeap 1, 4), (constHeap 0, 4), (constHeap 2, 4), (constHeap 0, 9)]
            (World.fresh ⟨[]⟩)) ↔
        ∃ pre h post,
          [(constHeap 1, 4), (constHeap 0, 4), (constHeap 2, 4), (constHeap 0, 9)] =
            pre ++ (h, 4) :: post ∧ (∀ c ∈ post, c.2 ≠ 4) ∧ h.GetOccupyCount 4 ≠ 0) :=
  ⟨rfl, updateSequence_mem_iff_last_nonzero (World.fresh ⟨[]⟩) rfl _ 4⟩

/-- C3: `UpdateGraphSensorState(s)` changes nothing when `s` is in the occupied set and
its occupy count is nonzero, and when `s` is not in the occupied set and its occupy count
is zero: the occupied set and the retained list are as before. -/
theorem update_noop (h : SensorHeap) (s : SensorPtr) (w : World)
    (hcase : (s ∈ w.mgr._occupiedSensors ∧ h.GetOccupyCount s ≠ 0) ∨
      (s ∉ w.mgr._occupiedSensors ∧ h.GetOccupyCount s = 0)) :
    (UpdateGraphSensorState h s w).mgr._occupiedSensors = w.mgr._occupiedSensors ∧
      (UpdateGraphSensorState h s w).mgr._sensors = w.mgr._sensors ∧
      UpdateGraphSensorState h s w = w := by
  rw [update_unchanged h s w hcase]
  exact ⟨rfl, rfl, rfl⟩

theorem update_noop_witness :
    (((7 : SensorPtr) ∈ ({7} : Finset SensorPtr) ∧ (constHeap 3).GetOccupyCount 7 ≠ 0) ∨
        ((7 : SensorPtr) ∉ ({7} : Finset SensorPtr) ∧ (constHeap 3).GetOccupyCount 7 = 0)) ∧
      UpdateGraphSensorState (constHeap 3) 7 ⟨⟨[7, 8], {7}⟩, ⟨[]⟩⟩ = ⟨⟨[7, 8], {7}⟩, ⟨[]⟩⟩ :=
  ⟨by decide, (update_noop (constHeap 3) 7 ⟨⟨[7, 8], {7}⟩, ⟨[]⟩⟩ (by decide)).2.2⟩

/-- C4: `Reset()` and `Shutdown()` call `DeregisterEntity` once per position of the
retained list, with the IDs of its elements in list order, and make no other call on the
entity manager: no `RegisterEntity` call, and no call at all when the list is empty. -/
theorem reset_shutdown_deregister (h : SensorHeap) (w : World) :
    ∃ made : List EntityCall,
      (Reset h w).em.calls = w.em.calls ++ made ∧
      (Shutdown h w).em.calls = w.em.calls ++ made ∧
      made = w.mgr._sensors.map (fun s => EntityCall.DeregisterEntity (h.GetID s)) ∧
      made.length = w.mgr._sensors.length ∧
      (∀ e, EntityCall.RegisterEntity e ∉ made) ∧
      (w.mgr._sensors = [] → made = []) := by
  refine ⟨w.mgr._sensors.map (fun s => EntityCall.DeregisterEntity (h.GetID s)), ?_, ?_, rfl,
    by simp, by simp, ?_⟩
  · simp [Reset, destroySensors_eq]
  · simp [Shutdown, Reset, destroySensors_eq]
  · intro hnil
    simp [hnil]

/-- C5: after `Reset()`, after `Shutdown()` and after `Init()` the retained list has
length 0 and the occupied set has no member; `Init()` returns true. -/
theorem containers_empty_after_reset (h : SensorHeap) (w : World) :
    ((Reset h w).mgr._sensors.length = 0 ∧ ∀ s, s ∉ (Reset h w).mgr._occupiedSensors) ∧
      ((Shutdown h w).mgr._sensors.length = 0 ∧
        ∀ s, s ∉ (Shutdown h w).mgr._occupiedSensors) ∧
      ((Init h w).2.mgr._sensors.length = 0 ∧ ∀ s, s ∉ (Init h w).2.mgr._occupiedSensors) ∧
      (Init h w).1 = true := by
  simp [Init, Shutdown, Reset, destroySensors_eq]

/-- C6: `CreateSensors(generator)` calls `generator.CreateSensors()`, and with `L` the
list the generator reports after that call, it calls `RegisterEntity` once per element of
`L` in list order and leaves the retained list equal to `L`, whatever it held before. -/
theorem createSensors_registers_and_retains {G : Type} (gen : GraphSensorGenerator G)
    (generator : G) (w : World) :
    (CreateSensors gen generator w).1 = gen.CreateSensors generator ∧
      (CreateSensors gen generator w).2.em.calls =
        w.em.calls ++
          (gen.GetSensorsConst (gen.CreateSensors generator)).map EntityCall.RegisterEntity ∧
      (CreateSensors gen generator w).2.mgr._sensors =
        gen.GetSensorsConst (gen.CreateSensors generator) := by
  rw [createSensors_eq]
  exact ⟨rfl, rfl, rfl⟩

/-- C7 (counterexample): the occupied set leaves the retained list in two ways. On a
freshly constructed manager, whose retained list is empty, `UpdateGraphSensorState` with
a sensor whose count is nonzero puts that sensor in the occupied set. And after
`CreateSensors` with list `[1]` and an update that makes sensor 1 occupied, a second
`CreateSensors` with list `[2]` replaces the retained list and keeps 1 occupied. -/
theorem occupied_not_subset_sensors :
    (5 ∈ (runOps listGenerator [Op.UpdateGraphSensorState (constHeap 1) 5]
          (World.fresh ⟨[]⟩)).mgr._occupiedSensors ∧
        5 ∉ (runOps listGenerator [Op.UpdateGraphSensorState (constHeap 1) 5]
          (World.fresh ⟨[]⟩)).mgr._sensors) ∧
      (1 ∈ (runOps listGenerator
            [Op.CreateSensors [1], Op.UpdateGraphSensorState (constHeap 1) 1,
              Op.CreateSensors [2]] (World.fresh ⟨[]⟩)).mgr._occupiedSensors ∧
        1 ∉ (runOps listGenerator
            [Op.CreateSensors [1], Op.UpdateGraphSensorState (constHeap 1) 1,
              Op.CreateSensors [2]] (World.fresh ⟨[]⟩)).mgr._sensors) := by
  refine ⟨by decide, ?_⟩
  simp [runOps, applyOp, createSensors_eq, World.fresh, GraphSensorManager.new, listGenerator,
    UpdateGraphSensorState, constHeap]

/-- C7 (amended): at every state reached from a freshly constructed manager by a sequence
of `CreateSensors`, `UpdateGraphSensorState`, `Reset` and `Shutdown` calls in which each
`UpdateGraphSensorState` call whose sensor has a nonzero occupy count is passed a sensor
of the retained list, and each `CreateSensors` call is made when every sensor of the
occupied set is in the list the generator reports, every sensor in the occupied set is an
element of the retained list. -/
theorem occupied_subset_sensors_of_admissible {G : Type} (gen : GraphSensorGenerator G)
    (em : EntityManager) (ops : List (Op G)) (hadm : Admissible gen ops (World.fresh em)) :
    ∀ s ∈ (runOps gen ops (World.fresh em)).mgr._occupiedSensors,
      s ∈ (runOps gen ops (World.fresh em)).mgr._sensors :=
  runOps_preserves gen ops (World.fresh em) hadm
    (by simp [Included, World.fresh, GraphSensorManager.new])

theorem occupied_subset_sensors_of_admissible_witness :
    Admissible listGenerator
        [Op.CreateSensors [3, 4], Op.UpdateGraphSensorState (constHeap 1) 4,
          Op.CreateSensors [3, 4, 6], Op.UpdateGraphSensorState (constHeap 0) 9]
        (World.fresh ⟨[]⟩) ∧
      (runOps listGenerator
          [Op.CreateSensors [3, 4], Op.UpdateGraphSensorState (constHeap 1) 4,
            Op.CreateSensors [3, 4, 6], Op.UpdateGraphSensorState (constHeap 0) 9]
          (World.fresh ⟨[]⟩)).mgr._occupiedSensors = {4} ∧
      (runOps listGenerator
          [Op.CreateSensors [3, 4], Op.UpdateGraphSensorState (constHeap 1) 4,
            Op.CreateSensors [3, 4, 6], Op.UpdateGraphSensorState (constHeap 0) 9]
          (World.fresh ⟨[]⟩)).mgr._sensors = [3, 4, 6] ∧
      ∀ s ∈ (runOps listGenerator
          [Op.CreateSensors [3, 4], Op.UpdateGraphSensorState (constHeap 1) 4,
            Op.CreateSensors [3, 4, 6], Op.UpdateGraphSensorState (constHeap 0) 9]
          (World.fresh ⟨[]⟩)).mgr._occupiedSensors,
        s ∈ (runOps listGenerator
          [Op.CreateSensors [3, 4], Op.UpdateGraphSensorState (constHeap 1) 4,
            Op.CreateSensors [3, 4, 6], Op.UpdateGraphSensorState (constHeap 0) 9]
          (World.fresh ⟨[]⟩)).mgr._sensors :=
  have hadm : Admissible listGenerator
      [Op.CreateSensors [3, 4], Op.UpdateGraphSensorState (constHeap 1) 4,
        Op.CreateSensors [3, 4, 6], Op.UpdateGraphSensorState (constHeap 0) 9]
      (World.fresh ⟨[]⟩) := by
    simp [Admissible, opGuard, applyOp, createSensors_eq, World.fresh,
      GraphSensorManager.new, listGenerator, UpdateGraphSensorState, constHeap]
  ⟨hadm,
    by simp [runOps, applyOp, createSensors_eq, World.fresh, GraphSensorManager.new,
      listGenerator, UpdateGraphSensorState, constHeap],
    by simp [runOps, applyOp, createSensors_eq, World.fresh, GraphSensorManager.new,
      listGenerator, UpdateGraphSensorState, constHeap],
    occupied_subset_sensors_of_admissible listGenerator ⟨[]⟩ _ hadm⟩

/-- C8 (the code at the failing input): two `CreateSensors` calls in a row on a fresh
manager, the generator reporting `[1]` at the first and `[2]` at the second. Sensor 1 has
been passed to `RegisterEntity`, no `DeregisterEntity` call has been made, and sensor 1 is
no longer in the retained list. -/
theorem createSensors_twice_drops_registered :
    (runOps listGenerator [Op.CreateSensors [1], Op.CreateSensors [2]]
        (World.fresh ⟨[]⟩)).em.calls =
        [EntityCall.RegisterEntity 1, EntityCall.RegisterEntity 2] ∧
      (runOps listGenerator [Op.CreateSensors [1], Op.CreateSensors [2]]
        (World.fresh ⟨[]⟩)).mgr._sensors = [2] ∧
      (∀ h : SensorHeap, (Reset h (runOps listGenerator [Op.CreateSensors [1], Op.CreateSensors [2]]
        (World.fresh ⟨[]⟩))).em.calls =
        [EntityCall.RegisterEntity 1, EntityCall.RegisterEntity 2,
          EntityCall.DeregisterEntity (h.GetID 2)]) := by
  simp [runOps, applyOp, createSensors_eq, Reset, destroySensors_eq, World.fresh,
    GraphSensorManager.new, listGenerator]

/-- C9: `UpdateGraphSensorState(s)` leaves the membership of every sensor `t` other than
`s` as it was, leaves the retained list unchanged and makes no call on the entity
manager. -/
theorem update_frame (h : SensorHeap) (s t : SensorPtr) (w : World) (hts : t ≠ s) :
    (t ∈ (UpdateGraphSensorState h s w).mgr._occupiedSensors ↔ t ∈ w.mgr._occupiedSensors) ∧
      (UpdateGraphSensorState h s w).mgr._sensors = w.mgr._sensors ∧
      (UpdateGraphSensorState h s w).em.calls = w.em.calls :=
  ⟨mem_update_other h s t w hts, update_sensors h s w, by rw [update_em]⟩

theorem update_frame_witness :
    (2 : SensorPtr) ≠ 1 ∧
      ((2 ∈ (UpdateGraphSensorState (constHeap 0) 1 ⟨⟨[1, 2], {1, 2}⟩, ⟨[]⟩⟩).mgr._occupiedSensors ↔
          2 ∈ ({1, 2} : Finset SensorPtr)) ∧
        (UpdateGraphSensorState (constHeap 0) 1 ⟨⟨[1, 2], {1, 2}⟩, ⟨[]⟩⟩).mgr._sensors = [1, 2] ∧
        (UpdateGraphSensorState (constHeap 0) 1 ⟨⟨[1, 2], {1, 2}⟩, ⟨[]⟩⟩).em.calls = []) :=
  ⟨by decide, update_frame (constHeap 0) 1 2 ⟨⟨[1, 2], {1, 2}⟩, ⟨[]⟩⟩ (by decide)⟩

/-- C10: when the occupy count of `s` is the same at both calls, calling
`UpdateGraphSensorState(s)` twice in a row leaves the same state as calling it once. -/
theorem update_idempotent (h1 h2 : SensorHeap) (s : SensorPtr) (w : World)
    (hsame : h2.GetOccupyCount s = h1.GetOccupyCount s) :
    UpdateGraphSensorState h2 s (UpdateGraphSensorState h1 s w) =
      UpdateGraphSensorState h1 s w :=
  update_update h1 h2 s w hsame

theorem update_idempotent_witness :
    (constHeap 2).GetOccupyCount 5 = (SensorHeap.mk (fun p => p - 3) (fun p => p)).GetOccupyCount 5 ∧
      UpdateGraphSensorState (constHeap 2) 5
          (UpdateGraphSensorState (SensorHeap.mk (fun p => p - 3) (fun p => p)) 5
            ⟨⟨[5], ∅⟩, ⟨[]⟩⟩) =
        UpdateGraphSensorState (SensorHeap.mk (fun p => p - 3) (fun p => p)) 5
          ⟨⟨[5], ∅⟩, ⟨[]⟩⟩ :=
  ⟨by decide, update_idempotent (SensorHeap.mk (fun p => p - 3) (fun p => p)) (constHeap 2) 5
    ⟨⟨[5], ∅⟩, ⟨[]⟩⟩ (by decide)⟩

end SensorTest
